import Mathlib

/-!
Shallow embedding of `src/meld/meldwindow.py` (class `MeldWindow`): the
window-level close coordination (`on_delete_event`, `page_removed`,
`on_page_state_changed`), the idle-driven scheduling glue (`on_idle`,
`on_scheduler_runnable`), comparison-request dispatch (`append_diff` and
friends) and `current_doc`.

Python integers become `Nat`/`Int`, `Gtk.ResponseType` values are restricted
to the three values the close protocol uses, and every stateful method is a
function from the window state to a new window state, together with its
return value and a trace of the externally visible events it performs.
-/

/-- The three close responses of the protocol (`Gtk.ResponseType.OK`,
`CANCEL`, `APPLY`); the code under `src/` compares responses only against
`CANCEL` and `APPLY`, every other response is treated as OK. -/
inductive ResponseType
  | OK
  | CANCEL
  | APPLY
deriving DecidableEq

/-- Modelled from the spec: the document lifecycle state
(`ComparisonState` is imported from `meld/melddoc.py`, which is not under
`src/`). Spec section 3 gives the lifecycle as Active, Closing, Closed;
the code under `src/` inspects only `Closing`. -/
inductive ComparisonState
  | Active
  | Closing
  | Closed
deriving DecidableEq

/-- Kinds of notebook page. `NewDiffTab` is the only page kind that is not
a `MeldDoc` (see the `isinstance(page, MeldDoc)` checks in `_append_page`
and `current_doc`). -/
inductive TabKind
  | fileDiffT
  | dirDiffT
  | vcViewT
  | imageDiffT
  | newDiffT
deriving DecidableEq

/-- Whether a page of this kind is an instance of `MeldDoc`. -/
def TabKind.isMeldDoc : TabKind → Bool
  | TabKind.newDiffT => false
  | _ => true

/-- A notebook page (an open comparison tab). `id` stands for Python object
identity, `response` is the answer the external document would give to a
close request (the close-request contract of spec section 6), and
`hasScheduler` models `hasattr(page, 'scheduler')`. -/
structure Tab where
  id : Nat
  kind : TabKind
  response : ResponseType
  hasScheduler : Bool
deriving DecidableEq

/-- Modelled from the spec: a resumable unit of background work
(`meld/task.py` is not under `src/`). Spec section 3: each resumption either
suspends, optionally carrying a progress string, or completes; we model a
task by the number of remaining resumptions and the progress string each
resumption yields. -/
structure SchedTask where
  steps : Nat
  progress : Option String
deriving DecidableEq

/-- Modelled from the spec: the aggregate scheduler (`LifoScheduler` of
`meld/task.py`, not under `src/`). Spec section 4.1: `iteration` advances
exactly one step of one pending task; `tasks_pending` is true iff some
registered work is unfinished. The pending work of all queues is modelled
as one task list; `schedulers` records which per-document queues are
registered (`add_scheduler` / `remove_scheduler`). -/
structure LifoScheduler where
  tasks : List SchedTask
  schedulers : List Nat
deriving DecidableEq

/-- Advance one step of one pending task and return the progress string the
step produced, if any (spec section 4.1). -/
def LifoScheduler.iteration : LifoScheduler → LifoScheduler × Option String
  | { tasks := [], schedulers := qs } => ({ tasks := [], schedulers := qs }, none)
  | { tasks := t :: rest, schedulers := qs } =>
      if t.steps ≤ 1 then ({ tasks := rest, schedulers := qs }, t.progress)
      else ({ tasks := { t with steps := t.steps - 1 } :: rest, schedulers := qs },
            t.progress)

/-- True iff some task is unfinished (spec section 4.1). -/
def LifoScheduler.tasks_pending (s : LifoScheduler) : Bool :=
  !s.tasks.isEmpty

/-- Unregister a per-document queue (first occurrence, as Python list
removal does). -/
def LifoScheduler.remove_scheduler (s : LifoScheduler) (qid : Nat) :
    LifoScheduler :=
  { s with schedulers := s.schedulers.erase qid }

/-- Register a per-document queue. -/
def LifoScheduler.add_scheduler (s : LifoScheduler) (qid : Nat) :
    LifoScheduler :=
  { s with schedulers := s.schedulers ++ [qid] }

/-- Externally visible events performed by the window methods, recorded as a
trace so that ordering claims can be stated. -/
inductive Event
  | setCurrent (tabId : Nat)
  | closeRequest (tabId : Nat)
  | schedRemoved (tabId : Nat)
  | docSwitch (tabId : Nat)
  | removedTab (tabId : Nat)
  | switchPage (which : Int)
  | emitDelete
  | destroyCall
  | iterateCall
  | pendingCheck
deriving DecidableEq

/-- The `MeldWindow` state. `pages` is the ordered notebook tab collection,
`current` the current page index (`-1` when there is none), `idle_hooked`
the id of the idle source the window believes it has armed, `armed` the
number of GLib idle sources actually armed on `on_idle` (GLib keeps a
source armed while its callback returns True, and `GLib.idle_add` always
arms a fresh one), `nextSource` a fresh-source-id counter, `stopAction` the
"stop" action (`none` once the action has been torn down during window
close; `some b` means present with enabled-flag `b`), `lastProgressTime`
the `_last_progress_time` attribute (`none` when the attribute is absent),
`now`/`timestamp` the clock values read by `on_idle`, `nextTabId` a
fresh-identity counter for newly created documents, and `destroyed` whether
`self.destroy()` has been called. -/
structure Window where
  pages : List Tab
  current : Int
  should_close : Bool
  idle_hooked : Option Nat
  sched : LifoScheduler
  spinnerOn : Bool
  spinnerTooltip : String
  stopAction : Option Bool
  lastProgressTime : Option Nat
  now : Nat
  timestamp : String
  armed : Nat
  nextSource : Nat
  nextTabId : Nat
  destroyed : Bool
deriving DecidableEq

/-- `Gtk.Notebook.page_num` on a list of pages: the index of the page, `-1`
when the page is not in the notebook. -/
def page_num_list : List Tab → Tab → Int
  | [], _ => -1
  | p :: ps, t =>
      if p.id == t.id then 0
      else
        let r := page_num_list ps t
        if r < 0 then -1 else r + 1

/-- `self.notebook.page_num(page)`. -/
def page_num (w : Window) (t : Tab) : Int :=
  page_num_list w.pages t

/-- `self.notebook.set_current_page(n)`; Gtk selects the last page when the
index is negative. -/
def set_current_page (w : Window) (n : Int) : Window :=
  if n < 0 then { w with current := (w.pages.length : Int) - 1 }
  else { w with current := n }

/-- `self.notebook.get_current_page()`. -/
def get_current_page (w : Window) : Int :=
  w.current

/-- `MeldWindow.has_pages`: `self.notebook.get_n_pages() > 0`. -/
def has_pages (w : Window) : Bool :=
  decide (0 < w.pages.length)

/-- `self.notebook.remove_page(n)`. Gtk removes the last page when `n` is
negative. The current-page index Gtk leaves behind is approximated (Gtk
switches to a neighbouring page); no claim depends on the exact neighbour,
only on the index becoming `-1` when the notebook empties. -/
def remove_page (w : Window) (n : Int) : Window :=
  let ps2 := if n < 0 then w.pages.dropLast else w.pages.eraseIdx n.toNat
  let c :=
    if ps2.isEmpty then (-1 : Int)
    else if (ps2.length : Int) ≤ w.current then (ps2.length : Int) - 1
    else w.current
  { w with pages := ps2, current := c }

/-- The re-entrant `self.emit('delete-event', ...)` inside `page_removed`
happens only when the notebook has no pages left, and on such a state the
tab loop of `on_delete_event` is vacuous: the responses list is empty, so
`should_close` is assigned `False` and the returned `cancel_delete` is just
`has_pages`. This helper is `on_delete_event` specialised to that situation;
the lemma `on_delete_event_of_no_pages` below proves it agrees with the full
definition on every state with an empty page list. -/
def delete_event_on_empty (w : Window) : Window × Bool :=
  ({ w with should_close := false }, has_pages w)

/-- `MeldWindow.page_removed` (lines 490-540), in its direct-call form
`(page, response)` used by the `close_signal` connection. The
`debug_print` and timing statements log only; `handle_current_doc_switch`
(lines 340-363) only attaches debug monitors, so it is recorded as the
`docSwitch` trace event with no state effect. On the OK path the queue is
unregistered when the page has one, the page is removed, and when no pages
remain the handler synthesises `on_switch_page(notebook, page, -1)` and, if
`should_close` is set, re-emits the window delete event, destroying the
window when that event is not cancelled. -/
def page_removed (w : Window) (page : Tab) (response : ResponseType) :
    Window × List Event :=
  let n := page_num w page
  match response with
  | ResponseType.CANCEL => (w, [])
  | ResponseType.APPLY => ({ w with should_close := true }, [])
  | ResponseType.OK =>
      let w1 :=
        if page.hasScheduler then
          { w with sched := w.sched.remove_scheduler page.id }
        else w
      let evs1 :=
        if page.hasScheduler then [Event.schedRemoved page.id] else []
      let evs2 :=
        if get_current_page w1 == n then [Event.docSwitch page.id] else []
      let w2 := remove_page w1 n
      if has_pages w2 then
        (w2, evs1 ++ evs2 ++ [Event.removedTab page.id])
      else if w2.should_close then
        let w3 := (delete_event_on_empty w2).1
        if (delete_event_on_empty w2).2 then
          (w3, evs1 ++ evs2 ++
            [Event.removedTab page.id, Event.switchPage (-1), Event.emitDelete])
        else
          ({ w3 with destroyed := true },
           evs1 ++ evs2 ++
            [Event.removedTab page.id, Event.switchPage (-1), Event.emitDelete,
             Event.destroyCall])
      else
        (w2, evs1 ++ evs2 ++ [Event.removedTab page.id, Event.switchPage (-1)])

/-- Modelled from the spec: the per-document close request
(`MeldDoc.on_delete_event` in `meld/melddoc.py`, which is not under
`src/`). Per spec sections 4.3, 4.4 and 8 the document answers one of OK,
CANCEL or APPLY; a document answering OK synchronously requests its own
removal (its `close_signal`, connected to `page_removed`, fires with the OK
response: section 8, "A and C removed immediately", "If all responses are
OK and no tabs remain"), while CANCEL and APPLY leave the tab in place for
now (an APPLY document re-requests removal once its asynchronous save
finishes). -/
def tab_on_delete_event (w : Window) (t : Tab) :
    Window × ResponseType × List Event :=
  match t.response with
  | ResponseType.OK =>
      let r := page_removed w t ResponseType.OK
      (r.1, ResponseType.OK, r.2)
  | ResponseType.CANCEL => (w, ResponseType.CANCEL, [])
  | ResponseType.APPLY => (w, ResponseType.APPLY, [])

/-- The tab loop of `MeldWindow.on_delete_event` (lines 318-321): for each
page of the (reversed) snapshot, make it the current page, then request its
close and collect the response. -/
def close_loop : Window → List Tab → Window × List ResponseType × List Event
  | w, [] => (w, [], [])
  | w, t :: ts =>
      let w1 := set_current_page w (page_num w t)
      let step := tab_on_delete_event w1 t
      let rest := close_loop step.1 ts
      (rest.1, step.2.1 :: rest.2.1,
       (Event.setCurrent t.id :: Event.closeRequest t.id :: step.2.2)
         ++ rest.2.2)

/-- `MeldWindow.on_delete_event` (lines 313-335): visit the pages
right-to-left collecting responses, then aggregate: the delete is cancelled
when some tab cancelled, some tab is still saving, or pages remain; the
persistent `should_close` flag is assigned `have_saving_tabs and not
have_cancelled_tabs`. Returns the new state, `cancel_delete`, and the event
trace. -/
def on_delete_event (w : Window) : Window × Bool × List Event :=
  let loop := close_loop w w.pages.reverse
  let responses := loop.2.1
  let have_cancelled_tabs := responses.any (fun r => r == ResponseType.CANCEL)
  let have_saving_tabs := responses.any (fun r => r == ResponseType.APPLY)
  let cancel_delete :=
    have_cancelled_tabs || have_saving_tabs || has_pages loop.1
  ({ loop.1 with should_close := have_saving_tabs && !have_cancelled_tabs },
   cancel_delete, loop.2.2)

/-- `MeldWindow.on_page_state_changed` (lines 542-546): clear a pending
deferred close when a tab that was in the `Closing` state reports a state
change (its close was cancelled). -/
def on_page_state_changed (w : Window) (old_state new_state : ComparisonState) :
    Window :=
  if w.should_close && (old_state == ComparisonState.Closing) then
    { w with should_close := false }
  else w

/-- The rate-limit test of `on_idle` (line 255): log when the
`_last_progress_time` attribute is absent or at least one second has
passed. -/
def progress_log_due (w : Window) : Bool :=
  match w.lastProgressTime with
  | none => true
  | some last => decide (last + 1 ≤ w.now)

/-- The progress-reporting block of `on_idle` (lines 248-258): when the
iteration returned a non-empty string (Python `if ret and isinstance(ret,
str)` — an empty string is falsy), set the spinner tooltip to the
timestamped text and, subject to the one-second rate limit, record
`_last_progress_time`. -/
def on_idle_progress (w : Window) (ret : Option String) : Window :=
  match ret with
  | none => w
  | some s =>
      if s.isEmpty then w
      else
        let wt : Window :=
          { w with spinnerTooltip := "[" ++ w.timestamp ++ "] " ++ s }
        if progress_log_due wt then
          { wt with lastProgressTime := some wt.now }
        else wt

/-- `MeldWindow.on_idle` (lines 239-280). One `scheduler.iteration()` call;
when it yields a non-empty progress string the spinner tooltip is set (with
a timestamp) and the rate-limited log may update `_last_progress_time`.
Then `tasks_pending()` is checked once: if pending, the spinner is started
and `GLib.idle_add(self.on_idle)` arms a fresh idle source (stored in
`idle_hooked`); otherwise the spinner is stopped, the tooltip cleared,
`idle_hooked` reset, `_last_progress_time` deleted, and — only when the
`stop` action still exists (`lookup_action` can return nothing during
window close) — the action disabled. The returned Bool is the Python
return value `pending`; GLib keeps the currently firing source armed
exactly when that value is True. -/
def on_idle (w : Window) : Window × Bool × List Event :=
  let it := w.sched.iteration
  let w2 : Window := on_idle_progress { w with sched := it.1 } it.2
  if w2.sched.tasks_pending then
    ({ w2 with spinnerOn := true, idle_hooked := some w2.nextSource,
               armed := w2.armed + 1, nextSource := w2.nextSource + 1 },
     true, [Event.iterateCall, Event.pendingCheck])
  else
    ({ w2 with spinnerOn := false, spinnerTooltip := "", idle_hooked := none,
               lastProgressTime := none,
               stopAction := w2.stopAction.map (fun _ => false) },
     false, [Event.iterateCall, Event.pendingCheck])

/-- One dispatch of an armed idle source by the host loop: the callback
`on_idle` runs; a callback returning False has its source destroyed
(`armed` drops by one), a callback returning True keeps its source armed.
Any source the callback itself armed via `GLib.idle_add` is already counted
inside `on_idle`. -/
def fire_idle_once (w : Window) : Window :=
  let r := on_idle w
  if r.2.1 then r.1 else { r.1 with armed := r.1.armed - 1 }

/-- `MeldWindow.on_scheduler_runnable` (lines 282-311). When no idle source
is hooked, show and start the spinner, enable the `stop` action and arm an
idle source; then check `tasks_pending()` and, when nothing is pending,
stop the spinner, clear the tooltip and reset `idle_hooked`. (The source
calls `lookup_action('stop').set_enabled(True)` without a guard; the action
is assumed present on this path.) -/
def on_scheduler_runnable (w : Window) : Window × Bool :=
  let w1 :=
    if w.idle_hooked.isNone then
      { w with spinnerOn := true,
               stopAction := w.stopAction.map (fun _ => true),
               idle_hooked := some w.nextSource,
               armed := w.armed + 1, nextSource := w.nextSource + 1 }
    else w
  if w1.sched.tasks_pending then (w1, true)
  else
    ({ w1 with spinnerOn := false, spinnerTooltip := "", idle_hooked := none,
               lastProgressTime := none },
     false)

/-- Result of `MeldWindow.current_doc`: either the current `MeldDoc` page or
the `DummyDoc` stand-in. -/
inductive CurrentDoc
  | doc (t : Tab)
  | dummy
deriving DecidableEq

/-- `MeldWindow.current_doc` (lines 748-760). The `Option` return type
models that a Python method could in principle return `None`; this one
never does: when the current page index is valid and that page is a
`MeldDoc` the page is returned, in every other case (no current page, page
out of range, page not a `MeldDoc`) a fresh `DummyDoc` is returned. -/
def current_doc (w : Window) : Option CurrentDoc :=
  if 0 ≤ w.current then
    match w.pages[w.current.toNat]? with
    | some page =>
        if page.kind.isMeldDoc then some (CurrentDoc.doc page)
        else some CurrentDoc.dummy
    | none => some CurrentDoc.dummy
  else some CurrentDoc.dummy

/-- `DummyDoc.__getattr__` (lines 757-759): every attribute access yields
`lambda *x: None`, a function that accepts any arguments and returns
`None`. -/
def dummy_doc_getattr (α β : Type) (attr : String) : List α → Option β :=
  fun _ => none

/-- A `Gio.File` as far as `append_diff` inspects it: its
`query_file_type` result and whether it counts as an image for
`files_are_images`. -/
inductive GFileType
  | directory
  | regular
  | special
deriving DecidableEq

structure GFile where
  id : Nat
  fileType : GFileType
  isImage : Bool
deriving DecidableEq

/-- `MeldWindow._append_page` (lines 562-587): append the page to the
notebook (Gtk makes the first page of an empty notebook current), switch
focus to it only when the current doc is a `DirDiff` or `VcView` or the new
page is a `NewDiffTab`, and register the page scheduler with the window
scheduler when the page has one. Signal connections carry no state. -/
def append_page_impl (w : Window) (page : Tab) : Window :=
  let w1 : Window :=
    { w with pages := w.pages ++ [page],
             current := if w.pages.isEmpty then 0 else w.current }
  let focusNew :=
    (match current_doc w1 with
     | some (CurrentDoc.doc t) =>
         t.kind == TabKind.dirDiffT || t.kind == TabKind.vcViewT
     | _ => false)
    || page.kind == TabKind.newDiffT
  let w2 := if focusNew then set_current_page w1 (page_num w1 page) else w1
  if page.hasScheduler then
    { w2 with sched := w2.sched.add_scheduler page.id }
  else w2

/-- Modelled: `files_are_images` lives in `meld/imagediff.py`, not under
`src/`; it only selects between `ImageDiff` and `FileDiff`, which no claim
distinguishes. Treated as "every argument is a present image file". -/
def files_are_images (gfiles : List (Option GFile)) : Bool :=
  gfiles.all (fun f =>
    match f with
    | some g => g.isImage
    | none => false)

/-- `MeldWindow.append_dirdiff` (lines 603-617). The `assert len(gfiles) in
(1, 2, 3)` is modelled as an error result; the document-internal
`folders` / `set_locations` / `auto_compare` task touch only the new
document, not the window state modelled here. -/
def append_dirdiff (w : Window) (gfiles : List (Option GFile))
    (auto_compare : Bool) : Except String (Window × Tab) :=
  if gfiles.length == 1 || gfiles.length == 2 || gfiles.length == 3 then
    let doc : Tab :=
      { id := w.nextTabId, kind := TabKind.dirDiffT,
        response := ResponseType.OK, hasScheduler := true }
    let w1 := { w with nextTabId := w.nextTabId + 1 }
    Except.ok (append_page_impl w1 doc, doc)
  else Except.error "assert failed: len(gfiles) in (1, 2, 3)"

/-- `MeldWindow.append_filediff` (lines 619-635): same length assertion;
the document is an `ImageDiff` when all files are images, else a
`FileDiff`. -/
def append_filediff (w : Window) (gfiles : List (Option GFile)) :
    Except String (Window × Tab) :=
  if gfiles.length == 1 || gfiles.length == 2 || gfiles.length == 3 then
    let kind :=
      if files_are_images gfiles then TabKind.imageDiffT else TabKind.fileDiffT
    let doc : Tab :=
      { id := w.nextTabId, kind := kind,
        response := ResponseType.OK, hasScheduler := true }
    let w1 := { w with nextTabId := w.nextTabId + 1 }
    Except.ok (append_page_impl w1 doc, doc)
  else Except.error "assert failed: len(gfiles) in (1, 2, 3)"

/-- `MeldWindow.append_filemerge` (lines 637-649): raises `ValueError`
unless exactly three files are given. -/
def append_filemerge (w : Window) (gfiles : List (Option GFile)) :
    Except String (Window × Tab) :=
  if gfiles.length == 3 then
    let doc : Tab :=
      { id := w.nextTabId, kind := TabKind.fileDiffT,
        response := ResponseType.OK, hasScheduler := true }
    let w1 := { w with nextTabId := w.nextTabId + 1 }
    Except.ok (append_page_impl w1 doc, doc)
  else Except.error "Need three files to auto-merge"

/-- `MeldWindow.append_diff` (lines 651-679): classify the non-`None`
arguments into directories and non-directories; a mixture raises
`ValueError` before any document is constructed or appended; otherwise the
request is dispatched to the dirdiff / filemerge / filediff appender. An
`Except.error` result models the Python exception propagating with the
window state untouched. -/
def append_diff (w : Window) (gfiles : List (Option GFile))
    (auto_compare : Bool) (auto_merge : Bool) :
    Except String (Window × Tab) :=
  let have_directories :=
    gfiles.any (fun f =>
      match f with
      | some g => g.fileType == GFileType.directory
      | none => false)
  let have_files :=
    gfiles.any (fun f =>
      match f with
      | some g => !(g.fileType == GFileType.directory)
      | none => false)
  if have_directories && have_files then
    Except.error "Cannot compare a mixture of files and directories"
  else if have_directories then append_dirdiff w gfiles auto_compare
  else if auto_merge then append_filemerge w gfiles
  else append_filediff w gfiles

/-- Classifier for the two events of the close negotiation loop itself
(focus switch and close request); every other event is a side effect of a
removal or of the idle machinery. -/
def is_negotiation_event : Event → Bool
  | Event.setCurrent _ => true
  | Event.closeRequest _ => true
  | _ => false

/-- Checks that in a trace every close request is immediately preceded by a
focus switch to the very tab being asked to close. -/
def focus_precedes_close : List Event → Bool
  | [] => true
  | Event.closeRequest _ :: _ => false
  | Event.setCurrent i :: Event.closeRequest j :: rest2 =>
      i == j && focus_precedes_close rest2
  | Event.setCurrent _ :: rest => focus_precedes_close rest
  | _ :: rest => focus_precedes_close rest

/-- A neutral window state used as the base of the concrete test states
below: empty notebook, idle driver quiet, `stop` action present but
disabled, deferred-close flag clear. -/
def baseWindow : Window :=
  { pages := [], current := -1, should_close := false, idle_hooked := none,
    sched := { tasks := [], schedulers := [] }, spinnerOn := false,
    spinnerTooltip := "", stopAction := some false, lastProgressTime := none,
    now := 0, timestamp := "12:00:00", armed := 0, nextSource := 1,
    nextTabId := 10, destroyed := false }

/-- A file-comparison tab that would answer OK to a close request. -/
def tabOK : Tab :=
  { id := 0, kind := TabKind.fileDiffT, response := ResponseType.OK,
    hasScheduler := true }

/-- A file-comparison tab that would answer CANCEL to a close request. -/
def tabCancel : Tab :=
  { id := 1, kind := TabKind.fileDiffT, response := ResponseType.CANCEL,
    hasScheduler := true }

/-- A file-comparison tab that would answer APPLY (asynchronous save in
flight) to a close request. -/
def tabApply : Tab :=
  { id := 2, kind := TabKind.fileDiffT, response := ResponseType.APPLY,
    hasScheduler := true }

/-- Window with one OK tab and one CANCEL tab, for the C1 counterexample. -/
def wOkCancel : Window :=
  { baseWindow with pages := [tabOK, tabCancel], current := 0 }

/-- Window with one APPLY tab, for the C2 witness. -/
def wApplyOnly : Window :=
  { baseWindow with pages := [tabApply], current := 0 }

/-- Window whose single page is an OK tab and whose deferred-close flag is
set, for the C5 witness. -/
def wLastOk : Window :=
  { baseWindow with pages := [tabOK], current := 0, should_close := true }

/-- A two-step background task, as left by a directory scan in progress. -/
def schedTask2 : SchedTask := { steps := 2, progress := some "Scanning" }

/-- Window with a two-step task pending and the idle driver not yet
hooked. -/
def wRunnable : Window :=
  { baseWindow with sched := { tasks := [schedTask2], schedulers := [] } }

/-- The state right after the `runnable` signal: one idle source armed. -/
def wDriving : Window := (on_scheduler_runnable wRunnable).1

/-- Window with a two-step task, for the C6 witness (pending branch). -/
def wPend : Window :=
  { baseWindow with
      sched := { tasks := [{ steps := 2, progress := none }], schedulers := [] } }

/-- Window with a one-step task, for the C6 witness (finishing branch). -/
def wDone : Window :=
  { baseWindow with
      sched := { tasks := [{ steps := 1, progress := none }], schedulers := [] } }

/-- A directory argument for `append_diff`. -/
def gDir : GFile := { id := 0, fileType := GFileType.directory, isImage := false }

/-- A regular-file argument for `append_diff`. -/
def gReg : GFile := { id := 1, fileType := GFileType.regular, isImage := false }

/-- The progress-reporting block of `on_idle` touches only the tooltip and
the rate-limit attribute; scheduler, source bookkeeping and the `stop`
action are untouched. -/
theorem on_idle_progress_preserves (w : Window) (r : Option String) :
    (on_idle_progress w r).sched = w.sched
    ∧ (on_idle_progress w r).armed = w.armed
    ∧ (on_idle_progress w r).nextSource = w.nextSource
    ∧ (on_idle_progress w r).stopAction = w.stopAction := by
  cases r with
  | none => exact ⟨rfl, rfl, rfl, rfl⟩
  | some s =>
      unfold on_idle_progress
      by_cases h : s.isEmpty
      · simp [h]
      · simp only [h, Bool.false_eq_true, if_false, ite_false]
        split
        · exact ⟨rfl, rfl, rfl, rfl⟩
        · exact ⟨rfl, rfl, rfl, rfl⟩

/-- On a state with no pages the full `on_delete_event` agrees with the
specialised `delete_event_on_empty` used inside `page_removed`: the tab
loop is vacuous, `should_close` is assigned `False`, and the returned
`cancel_delete` is `has_pages`. -/
theorem on_delete_event_of_no_pages (w : Window) (hp : w.pages = []) :
    on_delete_event w =
      ((delete_event_on_empty w).1, (delete_event_on_empty w).2, []) := by
  simp [on_delete_event, delete_event_on_empty, close_loop, hp, has_pages]

/-- C4: `page_removed` with response CANCEL aborts the removal with no
state change at all (no queue unregistered, no tab removed, `should_close`
untouched); with response APPLY it records the deferred close
(`should_close := true`) and aborts the removal with no tab removed. -/
theorem C4_cancel_apply_abort (w : Window) (t : Tab) :
    page_removed w t ResponseType.CANCEL = (w, [])
    ∧ page_removed w t ResponseType.APPLY
        = ({ w with should_close := true }, []) :=
  ⟨rfl, rfl⟩

/-- C8: a state-change report from a tab whose old state was `Closing`
(its close was cancelled) clears a pending `should_close`; a state change
whose old state was not `Closing` leaves the window state untouched. -/
theorem C8_deferred_close_reset (w : Window)
    (old_state new_state : ComparisonState) :
    (w.should_close = true → old_state = ComparisonState.Closing →
      (on_page_state_changed w old_state new_state).should_close = false)
    ∧ (old_state ≠ ComparisonState.Closing →
      on_page_state_changed w old_state new_state = w) := by
  constructor
  · intro hs ho
    subst ho
    simp [on_page_state_changed, hs]
  · intro ho
    have hb : (old_state == ComparisonState.Closing) = false := by
      simpa using ho
    simp [on_page_state_changed, hb]

/-- C8 witness: concrete applications of `C8_deferred_close_reset`: a
`Closing → Active` report clears the flag, an `Active → Closing` report
changes nothing. -/
theorem C8_deferred_close_reset_witness :
    (on_page_state_changed { baseWindow with should_close := true }
        ComparisonState.Closing ComparisonState.Active).should_close = false
    ∧ on_page_state_changed baseWindow
        ComparisonState.Active ComparisonState.Closing = baseWindow :=
  ⟨(C8_deferred_close_reset { baseWindow with should_close := true }
      ComparisonState.Closing ComparisonState.Active).1 rfl rfl,
   (C8_deferred_close_reset baseWindow
      ComparisonState.Active ComparisonState.Closing).2 (by decide)⟩

/-- C10: `current_doc` never returns `None`: it returns the current page
exactly when the current index denotes a page that is a `MeldDoc`, and a
`DummyDoc` in every other case; and every attribute access on the
`DummyDoc` yields a function that accepts any arguments and returns
`None`. -/
theorem C10_current_doc_total (w : Window) :
    (current_doc w).isSome = true
    ∧ (∀ t, 0 ≤ w.current → w.pages[w.current.toNat]? = some t →
        t.kind.isMeldDoc = true →
        current_doc w = some (CurrentDoc.doc t))
    ∧ ((¬ ∃ t, 0 ≤ w.current ∧ w.pages[w.current.toNat]? = some t
          ∧ t.kind.isMeldDoc = true) →
        current_doc w = some CurrentDoc.dummy)
    ∧ (∀ (α β : Type) (attr : String) (args : List α),
        dummy_doc_getattr α β attr args = none) := by
  refine ⟨?_, ?_, ?_, fun α β attr args => rfl⟩
  · by_cases h : 0 ≤ w.current
    · cases hq : w.pages[w.current.toNat]? with
      | none => simp [current_doc, h, hq]
      | some t => cases hm : t.kind.isMeldDoc <;> simp [current_doc, h, hq, hm]
    · simp [current_doc, h]
  · intro t h hq hm
    simp [current_doc, h, hq, hm]
  · intro hne
    by_cases h : 0 ≤ w.current
    · cases hq : w.pages[w.current.toNat]? with
      | none => simp [current_doc, h, hq]
      | some t =>
          cases hm : t.kind.isMeldDoc with
          | false => simp [current_doc, h, hq, hm]
          | true => exact absurd ⟨t, h, hq, hm⟩ hne
    · simp [current_doc, h]

/-- C9: a comparison request whose non-`None` arguments contain both a
directory and a non-directory is rejected by `append_diff` with the
`ValueError` message, before any document is constructed or any page
appended (an `Except.error` result leaves the window untouched). -/
theorem C9_mixed_request_rejected (w : Window) (gfiles : List (Option GFile))
    (auto_compare auto_merge : Bool)
    (hd : gfiles.any (fun f =>
        match f with
        | some g => g.fileType == GFileType.directory
        | none => false) = true)
    (hf : gfiles.any (fun f =>
        match f with
        | some g => !(g.fileType == GFileType.directory)
        | none => false) = true) :
    append_diff w gfiles auto_compare auto_merge
      = Except.error "Cannot compare a mixture of files and directories" := by
  simp only [append_diff, hd, hf, Bool.and_self, if_true]

/-- C9 witness: `C9_mixed_request_rejected` applied to a concrete request
mixing one directory and one regular file. -/
theorem C9_mixed_request_rejected_witness :
    append_diff baseWindow [some gDir, some gReg] false false
      = Except.error "Cannot compare a mixture of files and directories" :=
  C9_mixed_request_rejected baseWindow [some gDir, some gReg] false false
    (by decide) (by decide)

/-- C7, failing-input evaluation: after the `runnable` signal exactly one
idle source is armed, but one host-loop dispatch of that source leaves two
armed sources while the task is still pending — the callback returns True
(which keeps its own source armed) and additionally calls
`GLib.idle_add(self.on_idle)`. The next host-loop tick therefore polls the
scheduler twice, against the single-armed-callback invariant. -/
theorem C7_second_idle_source_armed :
    wDriving.armed = 1 ∧ wDriving.sched.tasks_pending = true
    ∧ (fire_idle_once wDriving).armed = 2
    ∧ (fire_idle_once wDriving).sched.tasks_pending = true :=
  ⟨rfl, rfl, rfl, rfl⟩

/-- C1, counterexample: in a window whose tabs answer [OK, CANCEL], the
window close is aborted (`cancel_delete` is True) and yet the tab
collection shrinks from two pages to one — the OK tab removed itself during
response collection — so a CANCEL response does not imply that zero tabs
are removed. -/
theorem C1_cancel_still_removes_ok_tab :
    (on_delete_event wOkCancel).2.1 = true
    ∧ wOkCancel.pages.length = 2
    ∧ (on_delete_event wOkCancel).1.pages.length = 1 :=
  ⟨rfl, rfl, rfl⟩

/-- C6: each invocation of `on_idle` calls the scheduler iteration exactly
once (the trace is one `iterateCall` followed by one `pendingCheck`, and
the resulting scheduler state is exactly one `iteration` ahead); when
tasks are pending it re-arms (arms a fresh idle source and returns True);
when none are pending it stops the spinner, clears the progress tooltip,
disarms (returns False with `idle_hooked` reset) and disables the `stop`
action through `Option.map`, which skips the update without error when the
action has already been torn down (`stopAction = none`). -/
theorem C6_idle_callback (w : Window) :
    (on_idle w).2.2 = [Event.iterateCall, Event.pendingCheck]
    ∧ (on_idle w).1.sched = (w.sched.iteration).1
    ∧ ((w.sched.iteration).1.tasks_pending = true →
        (on_idle w).2.1 = true
        ∧ (on_idle w).1.armed = w.armed + 1
        ∧ (on_idle w).1.idle_hooked = some w.nextSource)
    ∧ ((w.sched.iteration).1.tasks_pending = false →
        (on_idle w).2.1 = false
        ∧ (on_idle w).1.spinnerOn = false
        ∧ (on_idle w).1.spinnerTooltip = ""
        ∧ (on_idle w).1.idle_hooked = none
        ∧ (on_idle w).1.stopAction = w.stopAction.map (fun _ => false)) := by
  obtain ⟨hs, ha, hn, hst⟩ :=
    on_idle_progress_preserves
      { w with sched := (w.sched.iteration).1 } (w.sched.iteration).2
  refine ⟨?_, ?_, ?_, ?_⟩
  · simp only [on_idle]
    split <;> rfl
  · simp only [on_idle]
    split <;> simpa using hs
  · intro h
    simp only [on_idle, hs, h, if_true]
    simp [ha, hn]
  · intro h
    simp only [on_idle, hs, h, Bool.false_eq_true, if_false, ite_false]
    simp [hst]

/-- C6 witness: `C6_idle_callback` applied to a window with a two-step
task (still pending after one iteration: re-armed) and to a window with a
one-step task (nothing pending afterwards: the `stop` action, still
present, ends up disabled). -/
theorem C6_idle_callback_witness :
    (on_idle wPend).2.1 = true
    ∧ (on_idle wDone).2.1 = false
    ∧ (on_idle wDone).1.stopAction = some false :=
  ⟨((C6_idle_callback wPend).2.2.1 rfl).1,
   ((C6_idle_callback wDone).2.2.2 rfl).1,
   (((C6_idle_callback wDone).2.2.2 rfl).2.2.2.2).trans rfl⟩

/-- A page that is in the notebook has a nonnegative `page_num`. -/
theorem page_num_list_nonneg : ∀ (ps : List Tab) (t : Tab), t ∈ ps → 0 ≤ page_num_list ps t := by
  intro ps
  induction ps with
  | nil => intro t ht; cases ht
  | cons q qs ih =>
      intro t ht
      cases hq : q.id == t.id with
      | true => simp [page_num_list, hq]
      | false =>
          have ht2 : t ∈ qs := by
            rcases List.mem_cons.mp ht with h | h
            · subst h; simp at hq
            · exact h
          have h0 := ih t ht2
          simp only [page_num_list, hq, Bool.false_eq_true, if_false]
          rw [if_neg (by omega)]
          omega

/-- Removing the page at its own `page_num` index (as the OK path of
`page_removed` does) deletes exactly that page, when page identities are
distinct. -/
theorem erase_at_page_num : ∀ (ps : List Tab) (t : Tab),
    (ps.map Tab.id).Nodup → t ∈ ps →
    (if page_num_list ps t < 0 then ps.dropLast
     else ps.eraseIdx (page_num_list ps t).toNat)
      = ps.filter (fun p => !(p.id == t.id)) := by
  intro ps
  induction ps with
  | nil => intro t _ ht; cases ht
  | cons q qs ih =>
      intro t hn ht
      have hcons : (∀ x ∈ qs, ¬ x.id = q.id) ∧ (qs.map Tab.id).Nodup := by
        simpa using hn
      obtain ⟨hq_notin, hnd2⟩ := hcons
      cases hq : q.id == t.id with
      | true =>
          have hqid : q.id = t.id := by simpa using hq
          have h0 : page_num_list (q :: qs) t = 0 := by simp [page_num_list, hq]
          rw [h0, if_neg (by omega)]
          have hall : ∀ p ∈ qs, (!(p.id == t.id)) = true := by
            intro p hp
            have hne : p.id ≠ t.id := by
              intro he
              exact hq_notin p hp (by rw [he, hqid])
            simp [hne]
          have hstep : (q :: qs).filter (fun p => !(p.id == t.id))
              = qs.filter (fun p => !(p.id == t.id)) := by
            simp [List.filter_cons, hq]
          rw [hstep, List.filter_eq_self.mpr hall]
          rfl
      | false =>
          have ht2 : t ∈ qs := by
            rcases List.mem_cons.mp ht with h | h
            · subst h; simp at hq
            · exact h
          have hr0 : 0 ≤ page_num_list qs t := page_num_list_nonneg qs t ht2
          have h1 : page_num_list (q :: qs) t = page_num_list qs t + 1 := by
            simp only [page_num_list, hq, Bool.false_eq_true, if_false]
            rw [if_neg (by omega)]
          rw [h1, if_neg (by omega)]
          have h2 : (page_num_list qs t + 1).toNat = (page_num_list qs t).toNat + 1 := by
            omega
          rw [h2]
          have h3 : (q :: qs).eraseIdx ((page_num_list qs t).toNat + 1)
              = q :: qs.eraseIdx (page_num_list qs t).toNat := rfl
          rw [h3]
          have ihe := ih t hnd2 ht2
          rw [if_neg (by omega)] at ihe
          rw [ihe]
          simp [List.filter_cons, hq]

/-- The OK path of `page_removed` leaves the tab collection with exactly
the other pages, in order. -/
theorem page_removed_ok_pages (w : Window) (t : Tab)
    (hn : (w.pages.map Tab.id).Nodup) (ht : t ∈ w.pages) :
    (page_removed w t ResponseType.OK).1.pages
      = w.pages.filter (fun p => !(p.id == t.id)) := by
  have h0 : 0 ≤ page_num_list w.pages t := page_num_list_nonneg w.pages t ht
  have hkey2 : w.pages.eraseIdx (page_num_list w.pages t).toNat
      = w.pages.filter (fun p => !(p.id == t.id)) := by
    have h := erase_at_page_num w.pages t hn ht
    rwa [if_neg (by omega)] at h
  cases hsch : t.hasScheduler <;>
    simp only [page_removed, page_num, remove_page, delete_event_on_empty, hsch,
      Bool.false_eq_true, if_false, if_true] <;>
    (repeat' split) <;>
    first
      | exact hkey2
      | (exfalso; omega)

/-- Switching the current page does not change the tab collection. -/
theorem set_current_page_pages (w : Window) (n : Int) :
    (set_current_page w n).pages = w.pages := by
  unfold set_current_page
  split <;> rfl

/-- The close-negotiation loop collects exactly the responses of the
visited tabs, in visiting order. -/
theorem close_loop_responses : ∀ (ts : List Tab) (w : Window),
    (close_loop w ts).2.1 = ts.map Tab.response := by
  intro ts
  induction ts with
  | nil => intro w; rfl
  | cons t ts ih =>
      intro w
      have hresp :
          (tab_on_delete_event (set_current_page w (page_num w t)) t).2.1
            = t.response := by
        cases hr : t.response <;> simp [tab_on_delete_event, hr]
      simp [close_loop, hresp, ih]

/-- Master lemma for the close-negotiation loop: visiting a duplicate-free
list of open tabs removes exactly the visited tabs that answered OK (each
removed by its own removal request) and keeps every other page, in order. -/
theorem close_loop_pages : ∀ (ts : List Tab) (w : Window),
    (w.pages.map Tab.id).Nodup →
    (∀ t ∈ ts, t ∈ w.pages) →
    ((ts.map Tab.id).Nodup) →
    (close_loop w ts).1.pages
      = w.pages.filter
          (fun p => !(p.response == ResponseType.OK
                       && ts.any (fun t => t.id == p.id))) := by
  intro ts
  induction ts with
  | nil =>
      intro w _ _ _
      have : w.pages.filter
          (fun p => !(p.response == ResponseType.OK
                       && ([] : List Tab).any (fun t => t.id == p.id)))
          = w.pages := by
        apply List.filter_eq_self.mpr
        intro a _
        simp
      rw [this]
      rfl
  | cons t ts ih =>
      intro w hn hmem hts
      obtain ⟨ht_notin, hts2⟩ :
          (∀ x ∈ ts, ¬ x.id = t.id) ∧ (ts.map Tab.id).Nodup := by
        simpa using hts
      have htw : t ∈ w.pages := hmem t (List.mem_cons_self t ts)
      have hw1p : (set_current_page w (page_num w t)).pages = w.pages :=
        set_current_page_pages w (page_num w t)
      cases hr : t.response with
      | OK =>
          have hstep :
              (tab_on_delete_event (set_current_page w (page_num w t)) t).1.pages
                = w.pages.filter (fun p => !(p.id == t.id)) := by
            have h := page_removed_ok_pages (set_current_page w (page_num w t)) t
              (by rw [hw1p]; exact hn) (by rw [hw1p]; exact htw)
            rw [hw1p] at h
            simpa [tab_on_delete_event, hr] using h
          have hsub :
              ((tab_on_delete_event (set_current_page w (page_num w t)) t).1.pages.map
                Tab.id).Nodup := by
            rw [hstep]
            exact hn.sublist ((List.filter_sublist _).map Tab.id)
          have hmem2 : ∀ x ∈ ts,
              x ∈ (tab_on_delete_event (set_current_page w (page_num w t)) t).1.pages := by
            intro x hx
            rw [hstep]
            refine List.mem_filter.mpr ⟨hmem x (List.mem_cons_of_mem t hx), ?_⟩
            have : ¬ x.id = t.id := ht_notin x hx
            simp [this]
          have hrec := ih (tab_on_delete_event (set_current_page w (page_num w t)) t).1
            hsub hmem2 hts2
          -- close_loop on the cons
          have hcl : (close_loop w (t :: ts)).1.pages
              = (close_loop
                  (tab_on_delete_event (set_current_page w (page_num w t)) t).1 ts).1.pages := by
            simp [close_loop]
          rw [hcl, hrec, hstep, List.filter_filter]
          apply List.filter_congr
          intro p hp
          have hcase : (p.id == t.id) = false ∨ p = t := by
            cases hb : p.id == t.id with
            | false => exact Or.inl rfl
            | true =>
                exact Or.inr (List.inj_on_of_nodup_map hn hp htw (by simpa using hb))
          rcases hcase with hip | hpt
          · have hip2 : (t.id == p.id) = false := by
              have hne : ¬ p.id = t.id := by simpa using hip
              simp [Ne.symm hne]
            simp [hip, hip2]
          · have hpo : (p.response == ResponseType.OK) = true := by
              rw [hpt, hr]; rfl
            have hip : (p.id == t.id) = true := by rw [hpt]; simp
            have hip2 : (t.id == p.id) = true := by rw [hpt]; simp
            simp [hpo, hip, hip2]
      | CANCEL =>
          have hstate :
              (tab_on_delete_event (set_current_page w (page_num w t)) t).1
                = set_current_page w (page_num w t) := by
            simp [tab_on_delete_event, hr]
          have hrec := ih (set_current_page w (page_num w t))
            (by rw [hw1p]; exact hn)
            (fun x hx => by rw [hw1p]; exact hmem x (List.mem_cons_of_mem t hx))
            hts2
          have hcl : (close_loop w (t :: ts)).1.pages
              = (close_loop (set_current_page w (page_num w t)) ts).1.pages := by
            simp [close_loop, hstate]
          rw [hcl, hrec, hw1p]
          apply List.filter_congr
          intro p hp
          cases hpo : p.response == ResponseType.OK with
          | false => simp [hpo]
          | true =>
              have hip : (t.id == p.id) = false := by
                cases hb : t.id == p.id with
                | false => rfl
                | true =>
                    have hpt : t = p := by
                      refine List.inj_on_of_nodup_map hn htw hp ?_
                      simpa using hb
                    rw [← hpt, hr] at hpo
                    cases hpo
              simp [hpo, hip]
      | APPLY =>
          have hstate :
              (tab_on_delete_event (set_current_page w (page_num w t)) t).1
                = set_current_page w (page_num w t) := by
            simp [tab_on_delete_event, hr]
          have hrec := ih (set_current_page w (page_num w t))
            (by rw [hw1p]; exact hn)
            (fun x hx => by rw [hw1p]; exact hmem x (List.mem_cons_of_mem t hx))
            hts2
          have hcl : (close_loop w (t :: ts)).1.pages
              = (close_loop (set_current_page w (page_num w t)) ts).1.pages := by
            simp [close_loop, hstate]
          rw [hcl, hrec, hw1p]
          apply List.filter_congr
          intro p hp
          cases hpo : p.response == ResponseType.OK with
          | false => simp [hpo]
          | true =>
              have hip : (t.id == p.id) = false := by
                cases hb : t.id == p.id with
                | false => rfl
                | true =>
                    have hpt : t = p := by
                      refine List.inj_on_of_nodup_map hn htw hp ?_
                      simpa using hb
                    rw [← hpt, hr] at hpo
                    cases hpo
              simp [hpo, hip]

/-- Response predicates transfer along `map Tab.response`. -/
theorem any_map_response (l : List Tab) (q : ResponseType → Bool) :
    ((l.map Tab.response).any q) = l.any (fun t => q t.response) := by
  induction l with
  | nil => rfl
  | cons t ts ih => simp [ih]

/-- Response predicates over the collected (reversed) response list agree
with the same predicates over the page list. -/
theorem any_reverse_map_response (l : List Tab) (q : ResponseType → Bool) :
    ((l.reverse.map Tab.response).any q) = l.any (fun t => q t.response) := by
  simp [any_map_response]

/-- After a window-level close attempt the tab collection holds exactly
the pages that did not answer OK. -/
theorem on_delete_event_pages (w : Window)
    (hn : (w.pages.map Tab.id).Nodup) :
    (on_delete_event w).1.pages
      = w.pages.filter (fun p => !(p.response == ResponseType.OK)) := by
  have h := close_loop_pages w.pages.reverse w hn
    (fun t ht => List.mem_reverse.mp ht)
    (by simpa using hn)
  have hod : (on_delete_event w).1.pages
      = (close_loop w w.pages.reverse).1.pages := by
    simp [on_delete_event]
  rw [hod, h]
  apply List.filter_congr
  intro p hp
  have hany : (w.pages.reverse.any (fun t => t.id == p.id)) = true :=
    List.any_eq_true.mpr ⟨p, List.mem_reverse.mpr hp, by simp⟩
  simp [hany]

/-- The `should_close` flag left by `on_delete_event` is exactly
`have_saving_tabs and not have_cancelled_tabs` over the page responses. -/
theorem on_delete_event_should_close (w : Window) :
    (on_delete_event w).1.should_close
      = ((w.pages.any (fun t => t.response == ResponseType.APPLY))
         && !(w.pages.any (fun t => t.response == ResponseType.CANCEL))) := by
  have hresp := close_loop_responses w.pages.reverse w
  have h1 : (on_delete_event w).1.should_close
      = (((close_loop w w.pages.reverse).2.1.any
            (fun r => r == ResponseType.APPLY))
         && !((close_loop w w.pages.reverse).2.1.any
            (fun r => r == ResponseType.CANCEL))) := by
    simp [on_delete_event]
  rw [h1, hresp, any_reverse_map_response, any_reverse_map_response]

/-- C1, amended: when some open tab answers CANCEL, the window close is
aborted (`on_delete_event` reports the delete as cancelled) and the
aggregation decision itself removes no tab — every page that did not answer
OK is still in the collection, in order; only tabs that answered OK are
gone, removed during response collection by their own removal requests. -/
theorem C1_cancel_aborts_close (w : Window)
    (hn : (w.pages.map Tab.id).Nodup)
    (hc : ∃ t ∈ w.pages, t.response = ResponseType.CANCEL) :
    (on_delete_event w).2.1 = true
    ∧ (on_delete_event w).1.pages
        = w.pages.filter (fun p => !(p.response == ResponseType.OK)) := by
  constructor
  · have hresp := close_loop_responses w.pages.reverse w
    have hanyc : ((close_loop w w.pages.reverse).2.1.any
        (fun r => r == ResponseType.CANCEL)) = true := by
      rw [hresp, any_reverse_map_response]
      obtain ⟨t, htm, htr⟩ := hc
      exact List.any_eq_true.mpr ⟨t, htm, by simp [htr]⟩
    simp [on_delete_event, hanyc]
  · exact on_delete_event_pages w hn

/-- C1 witness: `C1_cancel_aborts_close` on the concrete [OK, CANCEL]
window: the close is aborted and exactly the CANCEL tab remains. -/
theorem C1_cancel_aborts_close_witness :
    (on_delete_event wOkCancel).2.1 = true
    ∧ (on_delete_event wOkCancel).1.pages = [tabCancel] :=
  ⟨(C1_cancel_aborts_close wOkCancel (by decide)
      ⟨tabCancel, by decide, rfl⟩).1,
   ((C1_cancel_aborts_close wOkCancel (by decide)
      ⟨tabCancel, by decide, rfl⟩).2).trans (by decide)⟩

/-- C2: after a window-level close attempt, `should_close` is true exactly
when no tab responded CANCEL and (some tab responded APPLY or some tab
remains open after processing); in every other case the attempt leaves
`should_close` false. -/
theorem C2_should_close_exact (w : Window)
    (hn : (w.pages.map Tab.id).Nodup) :
    ((on_delete_event w).1.should_close = true) ↔
      ((∀ t ∈ w.pages, t.response ≠ ResponseType.CANCEL)
       ∧ ((∃ t ∈ w.pages, t.response = ResponseType.APPLY)
          ∨ (on_delete_event w).1.pages ≠ [])) := by
  rw [on_delete_event_should_close w, on_delete_event_pages w hn]
  constructor
  · intro h
    obtain ⟨ha, hcne⟩ := (Bool.and_eq_true _ _).mp h
    refine ⟨?_, Or.inl ?_⟩
    · intro t htm hct
      have hany : w.pages.any (fun t => t.response == ResponseType.CANCEL)
          = true := List.any_eq_true.mpr ⟨t, htm, by simp [hct]⟩
      rw [hany] at hcne
      cases hcne
    · obtain ⟨t, htm, htr⟩ := List.any_eq_true.mp ha
      exact ⟨t, htm, by simpa using htr⟩
  · rintro ⟨hnc, hd⟩
    have hcb : w.pages.any (fun t => t.response == ResponseType.CANCEL)
        = false := by
      apply List.any_eq_false.mpr
      intro t htm
      simp [hnc t htm]
    have hab : w.pages.any (fun t => t.response == ResponseType.APPLY)
        = true := by
      rcases hd with ⟨t, htm, htr⟩ | hne
      · exact List.any_eq_true.mpr ⟨t, htm, by simp [htr]⟩
      · obtain ⟨p, hpmem⟩ := List.exists_mem_of_ne_nil _ hne
        have hpp := List.mem_filter.mp hpmem
        have hpo : p.response ≠ ResponseType.OK := by
          simpa using hpp.2
        have hpc := hnc p hpp.1
        have hpa : p.response = ResponseType.APPLY := by
          cases hres : p.response
          · exact absurd hres hpo
          · exact absurd hres hpc
          · rfl
        exact List.any_eq_true.mpr ⟨p, hpp.1, by simp [hpa]⟩
    simp [hab, hcb]

/-- C2 witness: `C2_should_close_exact` on a window with a single APPLY
tab: the attempt sets `should_close`. -/
theorem C2_should_close_exact_witness :
    (on_delete_event wApplyOnly).1.should_close = true :=
  (C2_should_close_exact wApplyOnly (by decide)).mpr
    ⟨by decide, Or.inl ⟨tabApply, by decide, rfl⟩⟩

/-- A removal produces no focus-switch or close-request events of the
negotiation loop. -/
theorem page_removed_no_negotiation (w : Window) (t : Tab) (r : ResponseType) :
    ∀ e ∈ (page_removed w t r).2, is_negotiation_event e = false := by
  intro e he
  cases r <;> simp only [page_removed] at he
  case CANCEL => simp at he
  case APPLY => simp at he
  case OK =>
    repeat' split at he
    all_goals (cases e <;> simp_all [is_negotiation_event])

/-- A tab close request produces no negotiation events beyond those the
loop itself records. -/
theorem tab_on_delete_event_no_negotiation (w : Window) (t : Tab) :
    ∀ e ∈ (tab_on_delete_event w t).2.2, is_negotiation_event e = false := by
  intro e he
  cases hr : t.response <;> simp only [tab_on_delete_event, hr] at he
  case OK => exact page_removed_no_negotiation w t ResponseType.OK e he
  case CANCEL => simp at he
  case APPLY => simp at he

/-- Prefixing a trace with non-negotiation events does not affect the
focus-before-close check. -/
theorem fpc_append_of_no_negotiation : ∀ (evs1 evs2 : List Event),
    (∀ e ∈ evs1, is_negotiation_event e = false) →
    focus_precedes_close (evs1 ++ evs2) = focus_precedes_close evs2 := by
  intro evs1
  induction evs1 with
  | nil => intro evs2 _; rfl
  | cons e rest ih =>
      intro evs2 h
      have he := h e (List.mem_cons_self e rest)
      have hrest : ∀ x ∈ rest, is_negotiation_event x = false :=
        fun x hx => h x (List.mem_cons_of_mem e hx)
      cases e with
      | setCurrent i => simp [is_negotiation_event] at he
      | closeRequest i => simp [is_negotiation_event] at he
      | schedRemoved i => exact ih evs2 hrest
      | docSwitch i => exact ih evs2 hrest
      | removedTab i => exact ih evs2 hrest
      | switchPage which => exact ih evs2 hrest
      | emitDelete => exact ih evs2 hrest
      | destroyCall => exact ih evs2 hrest
      | iterateCall => exact ih evs2 hrest
      | pendingCheck => exact ih evs2 hrest

/-- The negotiation loop trace passes the focus-before-close check. -/
theorem close_loop_focus : ∀ (ts : List Tab) (w : Window),
    focus_precedes_close ((close_loop w ts).2.2) = true := by
  intro ts
  induction ts with
  | nil => intro w; rfl
  | cons t ts ih =>
      intro w
      have htrace : (close_loop w (t :: ts)).2.2
          = Event.setCurrent t.id :: Event.closeRequest t.id ::
            ((tab_on_delete_event (set_current_page w (page_num w t)) t).2.2
              ++ (close_loop
                    (tab_on_delete_event (set_current_page w (page_num w t)) t).1
                    ts).2.2) := by
        simp [close_loop]
      rw [htrace]
      have hstep : focus_precedes_close
          (Event.setCurrent t.id :: Event.closeRequest t.id ::
            ((tab_on_delete_event (set_current_page w (page_num w t)) t).2.2
              ++ (close_loop
                    (tab_on_delete_event (set_current_page w (page_num w t)) t).1
                    ts).2.2))
          = ((t.id == t.id)
             && focus_precedes_close
                  ((tab_on_delete_event (set_current_page w (page_num w t)) t).2.2
                    ++ (close_loop
                          (tab_on_delete_event (set_current_page w (page_num w t)) t).1
                          ts).2.2)) := rfl
      rw [hstep,
        fpc_append_of_no_negotiation _ _
          (tab_on_delete_event_no_negotiation (set_current_page w (page_num w t)) t),
        ih]
      simp

/-- C3: a window-level close request collects the responses of the open
tabs in right-to-left order (for pages [A, B, C] the responses are those of
[C, B, A]), and in the event trace every close request is immediately
preceded by making that same tab the current notebook page. -/
theorem C3_right_to_left_focus (w : Window) :
    (close_loop w w.pages.reverse).2.1 = (w.pages.map Tab.response).reverse
    ∧ focus_precedes_close ((on_delete_event w).2.2) = true := by
  constructor
  · rw [close_loop_responses]
    simp
  · have h : (on_delete_event w).2.2 = (close_loop w w.pages.reverse).2.2 := by
      simp [on_delete_event]
    rw [h]
    exact close_loop_focus w.pages.reverse w

/-- C5: removing the only remaining tab with response OK synthesises the
same "no current document" switch-page notification used for an explicit
switch-to-none (`on_switch_page(notebook, page, -1)`), and when
`should_close` is set at that moment the window-level delete event is
re-emitted; on the now-empty notebook it is not cancelled, so the window is
destroyed without a fresh user action. -/
theorem C5_last_tab_removed (w : Window) (t : Tab) (hp : w.pages = [t]) :
    Event.switchPage (-1) ∈ (page_removed w t ResponseType.OK).2
    ∧ (w.should_close = true →
        Event.emitDelete ∈ (page_removed w t ResponseType.OK).2
        ∧ (page_removed w t ResponseType.OK).1.destroyed = true) := by
  have hn0 : page_num w t = 0 := by
    simp [page_num, hp, page_num_list]
  cases hsch : t.hasScheduler <;>
    simp only [page_removed, hn0, remove_page, delete_event_on_empty,
      has_pages, hp, hsch, Bool.false_eq_true, if_false, if_true] <;>
    (repeat' split) <;>
    simp_all

/-- C5 witness: `C5_last_tab_removed` on a concrete window whose single OK
page is removed while `should_close` is set: the switch-to-none
notification and the re-emitted delete event appear in the trace and the
window ends up destroyed. -/
theorem C5_last_tab_removed_witness :
    Event.switchPage (-1) ∈ (page_removed wLastOk tabOK ResponseType.OK).2
    ∧ Event.emitDelete ∈ (page_removed wLastOk tabOK ResponseType.OK).2
    ∧ (page_removed wLastOk tabOK ResponseType.OK).1.destroyed = true := by
  have h := C5_last_tab_removed wLastOk tabOK rfl
  exact ⟨h.1, (h.2 rfl).1, (h.2 rfl).2⟩

/-- C10 witness: `C10_current_doc_total` applied to a window whose current
page is a `MeldDoc` (the page itself is returned) and to a window with no
current page (the `DummyDoc` is returned). -/
theorem C10_current_doc_total_witness :
    current_doc { baseWindow with pages := [tabOK], current := 0 }
      = some (CurrentDoc.doc tabOK)
    ∧ current_doc baseWindow = some CurrentDoc.dummy :=
  ⟨(C10_current_doc_total
      { baseWindow with pages := [tabOK], current := 0 }).2.1
      tabOK (by decide) rfl rfl,
   (C10_current_doc_total baseWindow).2.2.1
      (by rintro ⟨t, h0, h⟩; exact absurd h0 (by decide))⟩
